import Mathlib

/-!
Shallow embedding of the function-evaluation and scenario-management engine
of the "Funciones" educational app (src/types.ts, src/App.tsx SimulatorView,
src/components/ProblemsView.tsx).

Numbers are modelled as exact rationals (`ℚ`); JavaScript `Math.round` is
`⌊x + 1/2⌋`, which matches its behaviour on finite doubles.  `Math.pow` is
modelled as a partial function on `ℚ` (`jsPow`): it is exact for integer
exponents; for a non-integer exponent the JS value is NaN when the base is
negative, and in general an irrational real when the base is positive, so
both cases are represented by `none` (a value that a `ℚ` embedding cannot
carry).  Square roots in the analyzer are modelled exactly with `Real.sqrt`.
-/

namespace Funciones

/-- src/types.ts: `enum FunctionType` (the `RATIONAL` member is declared but
never offered as a simulator tab). -/
inductive FunctionType where
  | LINEAR
  | QUADRATIC
  | EXPONENTIAL
  | RATIONAL
deriving DecidableEq, Repr

/-- src/types.ts: `interface LinearParams { m; n }`. -/
structure LinearParams where
  m : ℚ
  n : ℚ
deriving DecidableEq, Repr

/-- src/types.ts: `interface QuadraticParams { a; b; c }`. -/
structure QuadraticParams where
  a : ℚ
  b : ℚ
  c : ℚ
deriving DecidableEq, Repr

/-- src/types.ts: `interface ExponentialParams { base; k }`. -/
structure ExponentialParams where
  base : ℚ
  k : ℚ
deriving DecidableEq, Repr

/-- src/types.ts: `interface DataPoint { x; y; y2? }`.  `y` is `Option ℚ`
because the scenario sampler can store a NaN (or otherwise not rationally
representable) value in a pushed point, modelled as `none`; `y2 = none`
models an absent (`undefined`) second series. -/
structure DataPoint where
  x : ℚ
  y : Option ℚ
  y2 : Option ℚ
deriving DecidableEq, Repr

/-- JavaScript `Math.round` on a finite double: round half towards `+∞`,
i.e. `⌊q + 1/2⌋`. -/
def jsRound (q : ℚ) : ℤ :=
  ⌊q + 1 / 2⌋

/-- `Math.round(x * 10) / 10` — the one-decimal rounding used by the
free-range simulator (src/App.tsx, `const cleanX = Math.round(x * 10) / 10`). -/
def clean1 (q : ℚ) : ℚ :=
  (jsRound (q * 10) : ℚ) / 10

/-- `Math.round(x * 100) / 100` — the two-decimal rounding used by the
scenario sampler (src/components/ProblemsView.tsx,
`const cleanX = Math.round(x * 100) / 100`). -/
def clean2 (q : ℚ) : ℚ :=
  (jsRound (q * 100) : ℚ) / 100

/-- The raw values taken by the loop variable of
`for (let x = min; x <= max; x += step)`, namely `min + i*step` for
`i = 0, 1, …` while `min + i*step ≤ max` (exact rational stepping; the
binary floating-point drift that the source's `cleanX` rounding compensates
does not arise in `ℚ`).  For `step ≤ 0` the source loop would not terminate
(the spec requires `step > 0`); the embedding returns `[]` there, and every
theorem about the scenario sampler assumes `0 < step`.  The simulator's step
is the hardcoded `0.5`. -/
def rawGrid (min max step : ℚ) : List ℚ :=
  if 0 < step ∧ min ≤ max then
    (List.range (⌊(max - min) / step⌋.toNat + 1)).map fun i : ℕ => min + (i : ℚ) * step
  else []

/-- JavaScript `Math.pow b e`, as far as it is representable in `ℚ`:
for an integer exponent the result is exact (`b ^ e.num`; JS has
`pow 0 0 = 1`, matching `zpow`), except `pow 0 e = Infinity` for `e < 0`,
modelled `none`.  For a non-integer exponent JS yields NaN when `b < 0` and
in general an irrational real when `b > 0`; both are `none` here (no claim
depends on the value of a fractional power). -/
def jsPow (b e : ℚ) : Option ℚ :=
  if e.den = 1 then
    if b = 0 ∧ e.num < 0 then none
    else some (b ^ e.num)
  else none

/-- One evaluation step of the simulator's data loop (src/App.tsx lines
145–160): the `switch (activeTab)` computing `y` at `cleanX`.  The
exponential branch sets `y = NaN` (here `none`) when `base ≤ 0`.  The
`default`/`RATIONAL` case leaves `y = 0` (the initial `let y = 0`). -/
def evalSim (tab : FunctionType) (lin : LinearParams) (quad : QuadraticParams)
    (expo : ExponentialParams) (x : ℚ) : Option ℚ :=
  match tab with
  | .LINEAR => some (lin.m * x + lin.n)
  | .QUADRATIC => some (quad.a * x ^ 2 + quad.b * x + quad.c)
  | .EXPONENTIAL =>
      if 0 < expo.base then (jsPow expo.base x).map (fun p => expo.k * p)
      else none
  | .RATIONAL => some 0

/-- The free-range simulator's sample sequence (src/App.tsx, the `data`
`useMemo`, lines 134–168): iterate `x` from `-|range|` to `|range|` by
`0.5`, round to one decimal, evaluate, and push `{x: cleanX, y}` only when
`Math.abs(y) < 200` (false for NaN, so an undefined `y` is never pushed). -/
def simData (tab : FunctionType) (lin : LinearParams) (quad : QuadraticParams)
    (expo : ExponentialParams) (range : ℚ) : List DataPoint :=
  (rawGrid (-|range|) |range| (1 / 2)).filterMap fun x =>
    let cleanX := clean1 x
    match evalSim tab lin quad expo cleanX with
    | some y => if |y| < 200 then some ⟨cleanX, some y, none⟩ else none
    | none => none

/-- JavaScript `v || d` for an optional numeric field `v`: the default `d`
is taken when the field is absent (or NaN, not representable here) and also
when it is `0`, since `0` is falsy in JS. -/
def jsOrQ (v : Option ℚ) (d : ℚ) : ℚ :=
  match v with
  | none => d
  | some q => if q = 0 then d else q

/-- JavaScript `v || d` for an optional string field `v`: the default is
taken when the field is absent and also when it is the empty string
(falsy in JS). -/
def jsOrS (v : Option String) (d : String) : String :=
  match v with
  | none => d
  | some s => if s = "" then d else s

/-- src/components/ProblemsView.tsx: `type ProblemType`. -/
inductive ProblemType where
  | linear_comparison
  | exponential_growth
  | exponential_decay
  | linear_simple
deriving DecidableEq, Repr

/-- src/components/ProblemsView.tsx: the `params` bag of `ProblemModel`,
all fields optional. -/
structure ProbParams where
  slope : Option ℚ
  intercept : Option ℚ
  base : Option ℚ
  initial : Option ℚ
  slope2 : Option ℚ
  intercept2 : Option ℚ
deriving DecidableEq, Repr

/-- src/components/ProblemsView.tsx: the `labels` record of `ProblemModel`
(`series2` optional). -/
structure ProblemLabels where
  x : String
  y : String
  series1 : String
  series2 : Option String
deriving DecidableEq, Repr

/-- src/components/ProblemsView.tsx: the `range` record of `ProblemModel`. -/
structure ProblemRange where
  min : ℚ
  max : ℚ
  step : ℚ
  defaultVal : ℚ
deriving DecidableEq, Repr

/-- src/components/ProblemsView.tsx: `interface ProblemModel`. -/
structure ProblemModel where
  id : String
  title : String
  type : ProblemType
  description : String
  isCustom : Bool
  params : ProbParams
  labels : ProblemLabels
  range : ProblemRange
deriving DecidableEq, Repr

/-- src/components/ProblemsView.tsx `DEFAULT_PROBLEMS[0]`: the car-rental
built-in. -/
def carRentalProblem : ProblemModel :=
  { id := "car_rental"
    title := "Alquiler de Vehículos"
    type := .linear_comparison
    description := "Comparación de costos entre dos compañías según la distancia."
    isCustom := false
    params := { slope := some (1 / 2), intercept := some 45, base := none,
                initial := none, slope2 := some (1 / 5), intercept2 := some 60 }
    labels := { x := "Distancia (km)", y := "Costo ($)",
                series1 := "Compañía A", series2 := some "Compañía B" }
    range := { min := 0, max := 100, step := 1, defaultVal := 30 } }

/-- src/components/ProblemsView.tsx `DEFAULT_PROBLEMS[1]`: the snowball
built-in. -/
def snowballProblem : ProblemModel :=
  { id := "snowball"
    title := "Bola de Nieve"
    type := .exponential_growth
    description := "Crecimiento de peso de una bola de nieve al rodar (5% por seg)."
    isCustom := false
    params := { slope := none, intercept := none, base := some (21 / 20),
                initial := some 10, slope2 := none, intercept2 := none }
    labels := { x := "Tiempo (s)", y := "Peso (kg)", series1 := "Peso", series2 := none }
    range := { min := 0, max := 30, step := 1, defaultVal := 5 } }

/-- src/components/ProblemsView.tsx `DEFAULT_PROBLEMS[2]`: the anesthesia
built-in. -/
def anesthesiaProblem : ProblemModel :=
  { id := "anesthesia"
    title := "Concentración Anestesia"
    type := .exponential_decay
    description := "Eliminación de fármaco en sangre (5% por minuto)."
    isCustom := false
    params := { slope := none, intercept := none, base := some (19 / 20),
                initial := some 100, slope2 := none, intercept2 := none }
    labels := { x := "Tiempo (min)", y := "Concentración (%)", series1 := "Nivel", series2 := none }
    range := { min := 0, max := 60, step := 1, defaultVal := 10 } }

/-- src/components/ProblemsView.tsx: `DEFAULT_PROBLEMS` (the three built-in
scenarios, `isCustom = false`, in their fixed order). -/
def DEFAULT_PROBLEMS : List ProblemModel :=
  [carRentalProblem, snowballProblem, anesthesiaProblem]

/-- One evaluation of the scenario sampler's loop body
(src/components/ProblemsView.tsx lines 130–142): `(val1, val2)` at `x`,
with the `|| 0` / `|| 1` JS defaulting of the parameter bag.  The first
component is `none` when the exponential power is NaN / not rationally
representable (the source stores that value in the pushed point); the
second is `none` when `val2` stays `undefined`. -/
def evalScen (t : ProblemType) (params : ProbParams) (x : ℚ) :
    Option ℚ × Option ℚ :=
  match t with
  | .linear_comparison =>
      (some (jsOrQ params.intercept 0 + jsOrQ params.slope 0 * x),
       some (jsOrQ params.intercept2 0 + jsOrQ params.slope2 0 * x))
  | .linear_simple =>
      (some (jsOrQ params.intercept 0 + jsOrQ params.slope 0 * x), none)
  | .exponential_growth =>
      ((jsPow (jsOrQ params.base 1) x).map (fun p => jsOrQ params.initial 1 * p), none)
  | .exponential_decay =>
      ((jsPow (jsOrQ params.base 1) x).map (fun p => jsOrQ params.initial 1 * p), none)

/-- The scenario sampler (src/components/ProblemsView.tsx, the `data`
`useMemo`, lines 121–145): iterate `x` from `range.min` to `range.max` by
`range.step`, round to two decimals, evaluate, and push
`{x: cleanX, y: val1, y2: val2}` unconditionally — there is no filter and
no undefined-check on the pushed values. -/
def scenData (p : ProblemModel) : List DataPoint :=
  (rawGrid p.range.min p.range.max p.range.step).map fun x =>
    let cleanX := clean2 x
    let v := evalScen p.type p.params cleanX
    ⟨cleanX, v.1, v.2⟩

/-- src/components/ProblemsView.tsx: the component state the claims touch —
the catalog and the active-selection pointer. -/
structure ProblemsState where
  problems : List ProblemModel
  activeId : String
deriving DecidableEq, Repr

/-- src/components/ProblemsView.tsx line 113:
`problems.find(p => p.id === activeId) || problems[0]` — `none` only when
the catalog is empty (where the source would fault dereferencing
`activeProblem.range` later). -/
def activeProblem (st : ProblemsState) : Option ProblemModel :=
  match st.problems.find? (fun p => p.id == st.activeId) with
  | some p => some p
  | none => st.problems.head?

/-- The `Partial<ProblemModel>` draft filled in by the create modal: the
fields `handleAddProblem` reads.  `rangeMax` is the only range field the
handler consults (`newProblem.range?.max`). -/
structure NewProblem where
  title : Option String
  description : Option String
  type : ProblemType
  params : ProbParams
  labelX : Option String
  labelY : Option String
  labelSeries1 : Option String
  labelSeries2 : Option String
  rangeMax : Option ℚ
deriving DecidableEq, Repr

/-- src/components/ProblemsView.tsx `handleAddProblem` (lines 168–200):
builds the new `ProblemModel` from the draft with JS `||` defaults
(slope 1, intercept 0, base 1.1, initial 10, slope2 1, intercept2 0;
title "Nuevo Problema" when none supplied), id `custom_` ++ `Date.now()`
(`now`), `isCustom = true`, range `{min 0, max (…|| 50), step 1,
defaultVal 0}` — the local `const p = { … }` of the handler. -/
def createdProblem (now : ℕ) (np : NewProblem) : ProblemModel :=
  { id := "custom_" ++ toString now
    title := jsOrS np.title "Nuevo Problema"
    description := jsOrS np.description "Descripción del problema"
    type := np.type
    isCustom := true
    params := { slope := some (jsOrQ np.params.slope 1)
                intercept := some (jsOrQ np.params.intercept 0)
                base := some (jsOrQ np.params.base (11 / 10))
                initial := some (jsOrQ np.params.initial 10)
                slope2 := some (jsOrQ np.params.slope2 1)
                intercept2 := some (jsOrQ np.params.intercept2 0) }
    labels := { x := jsOrS np.labelX "X"
                y := jsOrS np.labelY "Y"
                series1 := jsOrS np.labelSeries1 "Serie 1"
                series2 := some (jsOrS np.labelSeries2 "Serie 2") }
    range := { min := 0, max := jsOrQ np.rangeMax 50, step := 1, defaultVal := 0 } }

/-- src/components/ProblemsView.tsx `handleAddProblem`, the state change:
`setProblems([...problems, p]); setActiveId(id); setShowModal(false)` —
append the created entry and select it. -/
def handleAddProblem (st : ProblemsState) (now : ℕ) (np : NewProblem) :
    ProblemsState :=
  { problems := st.problems ++ [createdProblem now np],
    activeId := (createdProblem now np).id }

/-- src/components/ProblemsView.tsx `handleDelete` (lines 202–207): filter
the catalog by id — with no `isCustom` check — and, when the deleted id was
active, select `newDocs[0]`.  When the filtered catalog is empty the source
faults on `newDocs[0].id`; the embedding keeps the old pointer there (no
claim exercises that case, the UI never deletes the three built-ins). -/
def handleDelete (st : ProblemsState) (id : String) : ProblemsState :=
  let newDocs := st.problems.filter (fun p => p.id != id)
  { problems := newDocs
    activeId :=
      if st.activeId = id then
        match newDocs with
        | [] => st.activeId
        | q :: _ => q.id
      else st.activeId }

/-- src/components/ProblemsView.tsx lines 107–110 (the persistence
`useEffect`): on every change of `problems`, serialize exactly
`problems.filter(p => p.isCustom)` under the custom-problems key. -/
def persistCustom (problems : List ProblemModel) : List ProblemModel :=
  problems.filter (fun p => p.isCustom)

/-- The abstract persisted blob under the custom-problems key: absent,
undecodable, or a decoded list of custom problems.  (JSON text itself is an
external-collaborator concern; the store treats it as a decodable blob.) -/
inductive Stored where
  | absent
  | corrupt
  | ok (ps : List ProblemModel)

/-- src/components/ProblemsView.tsx lines 82–93 (the `useState`
initializer): read the key; if present and decodable, return
`DEFAULT_PROBLEMS ++ custom`; on a decode error (caught) or an absent key,
fall back to `DEFAULT_PROBLEMS` alone. -/
def loadProblems : Stored → List ProblemModel
  | .absent => DEFAULT_PROBLEMS
  | .corrupt => DEFAULT_PROBLEMS
  | .ok ps => DEFAULT_PROBLEMS ++ ps

/-- src/App.tsx (SimulatorView): the params snapshot stored by
`handleSave` — `linear`, `quadratic` or `exponential` depending on the tab. -/
inductive SimParams where
  | lin (p : LinearParams)
  | quad (p : QuadraticParams)
  | expo (p : ExponentialParams)
deriving DecidableEq, Repr

/-- src/App.tsx: `interface SavedSimulation`. -/
structure SavedSimulation where
  id : ℕ
  name : String
  type : FunctionType
  params : SimParams
  timestamp : String
deriving DecidableEq, Repr

/-- src/App.tsx `handleSave` (lines 198–216): `prompt` yields `none`
(cancelled) or a string; `if (!name) return` abandons the save for `null`
and for the empty string; otherwise the snapshot
(params by tab: linear / quadratic / else exponential, id `Date.now()`)
is appended to the saved list. -/
def handleSave (sims : List SavedSimulation) (promptResult : Option String)
    (tab : FunctionType) (lin : LinearParams) (quad : QuadraticParams)
    (expo : ExponentialParams) (now : ℕ) (dateStr : String) :
    List SavedSimulation :=
  match promptResult with
  | none => sims
  | some name =>
      if name = "" then sims
      else
        let params : SimParams :=
          if tab = .LINEAR then .lin lin
          else if tab = .QUADRATIC then .quad quad
          else .expo expo
        sims ++ [{ id := now, name := name, type := tab, params := params,
                   timestamp := dateStr }]

/-- Result of the quadratic root classification displayed by
`getQuadraticAnalysis`: the two-root case carries real values
(`Math.sqrt delta`). -/
inductive QuadRoots where
  | noReal
  | one (r : ℚ)
  | two (rp rm : ℝ)

/-- The facts `getQuadraticAnalysis` renders. -/
structure QuadAnalysis where
  convex : Bool
  vx : ℚ
  vy : ℚ
  delta : ℚ
  roots : QuadRoots

/-- src/App.tsx `getQuadraticAnalysis` (lines 181–196):
`vx = -b/(2a)`, `vy = a·vx² + b·vx + c`, `delta = b² - 4ac`,
concavity `a > 0`, and the root display: `delta < 0` → "No reales",
`delta === 0` → the single value `vx`, else the pair
`(-b + √delta)/(2a)` first, `(-b - √delta)/(2a)` second. -/
noncomputable def getQuadraticAnalysis (q : QuadraticParams) : QuadAnalysis :=
  let vx : ℚ := -q.b / (2 * q.a)
  let vy : ℚ := q.a * vx ^ 2 + q.b * vx + q.c
  let delta : ℚ := q.b ^ 2 - 4 * q.a * q.c
  { convex := decide (0 < q.a)
    vx := vx
    vy := vy
    delta := delta
    roots :=
      if delta < 0 then .noReal
      else if delta = 0 then .one vx
      else .two ((-(q.b : ℝ) + Real.sqrt (delta : ℚ)) / (2 * (q.a : ℝ)))
                ((-(q.b : ℝ) - Real.sqrt (delta : ℚ)) / (2 * (q.a : ℝ))) }

/-- The facts the exponential analysis box renders. -/
structure ExpAnalysis where
  tipo : String
  corteY : ℚ
  asintota : ℚ
deriving DecidableEq, Repr

/-- src/App.tsx, the exponential branch of the analysis box (lines
384–390): `base > 1 ? 'Creciente' : 'Decreciente'`, y-intercept
`exponential.k`, asymptote `y = 0` (hardcoded). -/
def getExponentialAnalysis (p : ExponentialParams) : ExpAnalysis :=
  { tipo := if 1 < p.base then "Creciente" else "Decreciente"
    corteY := p.k
    asintota := 0 }

/-! ### Concrete instances used by witnesses and counterexamples -/

/-- A custom exponential scenario whose base is `-2` (non-positive, so the
Evaluator contract says every evaluation is Undefined). -/
def expBaseNeg2 : ProblemModel :=
  { id := "custom_1", title := "t", type := .exponential_growth,
    description := "d", isCustom := true,
    params := { slope := none, intercept := none, base := some (-2),
                initial := some 10, slope2 := none, intercept2 := none },
    labels := { x := "X", y := "Y", series1 := "S", series2 := none },
    range := { min := 0, max := 2, step := 1, defaultVal := 0 } }

/-- A linear scenario with a positive step smaller than the two-decimal
rounding grain (`0.001`). -/
def tinyStepProblem : ProblemModel :=
  { id := "custom_2", title := "t", type := .linear_simple,
    description := "d", isCustom := true,
    params := { slope := some 1, intercept := some 0, base := none,
                initial := none, slope2 := none, intercept2 := none },
    labels := { x := "X", y := "Y", series1 := "S", series2 := none },
    range := { min := 0, max := 1 / 500, step := 1 / 1000, defaultVal := 0 } }

/-- A linear scenario whose values exceed 200 inside its range. -/
def steepLineProblem : ProblemModel :=
  { id := "custom_3", title := "t", type := .linear_simple,
    description := "d", isCustom := true,
    params := { slope := some 1000, intercept := some 0, base := none,
                initial := none, slope2 := none, intercept2 := none },
    labels := { x := "X", y := "Y", series1 := "S", series2 := none },
    range := { min := 0, max := 1, step := 1, defaultVal := 0 } }

/-- A creation draft in which the user supplied nothing: no title, no
description, no numeric parameter, no labels, no range maximum. -/
def emptyDraft : NewProblem :=
  { title := none, description := none, type := .linear_simple,
    params := { slope := none, intercept := none, base := none,
                initial := none, slope2 := none, intercept2 := none },
    labelX := none, labelY := none, labelSeries1 := none, labelSeries2 := none,
    rangeMax := none }

/-- The initial store state: the three built-ins, first one active. -/
def defaultState : ProblemsState :=
  { problems := DEFAULT_PROBLEMS, activeId := "car_rental" }

/-! ### Helper lemmas -/

theorem floor_add_le_floor (u v : ℚ) : ⌊u⌋ + ⌊v⌋ ≤ ⌊u + v⌋ := by
  refine Int.le_floor.mpr ?_
  push_cast
  exact add_le_add (Int.floor_le u) (Int.floor_le v)

/-- Rounding at scale `c` is strictly monotone across a gap of at least
`1/c`. -/
theorem jsRound_div_strict_mono {c x y : ℚ} (hc : 0 < c) (h : 1 ≤ c * (y - x)) :
    (jsRound (x * c) : ℚ) / c < (jsRound (y * c) : ℚ) / c := by
  have h1 : (1 : ℤ) ≤ ⌊c * (y - x)⌋ := Int.le_floor.mpr (by exact_mod_cast h)
  have h2 : jsRound (x * c) + ⌊c * (y - x)⌋ ≤ jsRound (y * c) := by
    unfold jsRound
    calc ⌊x * c + 1 / 2⌋ + ⌊c * (y - x)⌋ ≤ ⌊x * c + 1 / 2 + c * (y - x)⌋ :=
          floor_add_le_floor _ _
      _ = ⌊y * c + 1 / 2⌋ := by congr 1; ring
  have hlt : jsRound (x * c) < jsRound (y * c) := by omega
  have hq : (jsRound (x * c) : ℚ) < (jsRound (y * c) : ℚ) := by exact_mod_cast hlt
  exact div_lt_div_of_pos_right hq hc

/-- The raw loop values all lie in `[min, max]`. -/
theorem rawGrid_mem_bounds {min max step x : ℚ} (hx : x ∈ rawGrid min max step) :
    min ≤ x ∧ x ≤ max := by
  unfold rawGrid at hx
  split at hx
  case isTrue h =>
    obtain ⟨hstep, hle⟩ := h
    obtain ⟨i, hi, rfl⟩ := List.mem_map.mp hx
    have hfl : (0 : ℤ) ≤ ⌊(max - min) / step⌋ :=
      Int.floor_nonneg.mpr (div_nonneg (by linarith) hstep.le)
    have hi' : (i : ℤ) ≤ ⌊(max - min) / step⌋ := by
      have := List.mem_range.mp hi
      omega
    have hiq : (i : ℚ) ≤ (max - min) / step := le_trans (by exact_mod_cast hi') (Int.floor_le _)
    constructor
    · have : (0 : ℚ) ≤ (i : ℚ) * step :=
        mul_nonneg (Nat.cast_nonneg i) hstep.le
      linarith
    · have : (i : ℚ) * step ≤ (max - min) / step * step :=
        mul_le_mul_of_nonneg_right hiq hstep.le
      rw [div_mul_cancel₀ _ (ne_of_gt hstep)] at this
      linarith
  case isFalse => simp at hx

/-- Rounding the grid at scale `c` gives a strictly increasing list as soon
as one grid step moves the scaled value by at least `1`. -/
theorem pairwise_round_rawGrid {c mn mx step : ℚ} (hc : 0 < c) (hs : 1 ≤ c * step) :
    ((rawGrid mn mx step).map fun x => (jsRound (x * c) : ℚ) / c).Pairwise (· < ·) := by
  unfold rawGrid
  split
  case isTrue hcase =>
    rw [List.map_map, List.pairwise_map]
    refine (List.pairwise_lt_range _).imp ?_
    intro i j hij
    refine jsRound_div_strict_mono hc ?_
    have h1 : (1 : ℚ) ≤ (j : ℚ) - (i : ℚ) := by
      have hij1 : i + 1 ≤ j := hij
      have := (Nat.cast_le (α := ℚ)).mpr hij1
      push_cast at this
      linarith
    have hstep : (0 : ℚ) < step := hcase.1
    calc (1 : ℚ) = 1 * 1 := by ring
      _ ≤ (c * step) * ((j : ℚ) - i) := by
          refine mul_le_mul hs h1 (by norm_num) ?_
          positivity
      _ = c * ((mn + (j : ℚ) * step) - (mn + (i : ℚ) * step)) := by ring
  case isFalse => simp

/-- Projecting a `filterMap` through `g` yields a sublist of the projection
of the whole list through `h`, provided `f` respects the projections. -/
theorem map_filterMap_sublist {α β γ : Type} (l : List α) (f : α → Option β)
    (g : β → γ) (h : α → γ) (hgh : ∀ a b, f a = some b → g b = h a) :
    ((l.filterMap f).map g).Sublist (l.map h) := by
  induction l with
  | nil => simp
  | cons a l ih =>
    cases hfa : f a with
    | none =>
        rw [List.filterMap_cons, hfa, List.map_cons]
        exact ih.cons _
    | some b =>
        rw [List.filterMap_cons, hfa, List.map_cons, List.map_cons,
          hgh a b hfa]
        exact ih.cons₂ _

/-- Each point the simulator pushes carries the one-decimal rounding of the
raw loop value it came from. -/
theorem simData_point_x {tab lin quad expo x p}
    (hfx : (fun x =>
        match evalSim tab lin quad expo (clean1 x) with
        | some y => if |y| < 200 then some (⟨clean1 x, some y, none⟩ : DataPoint) else none
        | none => none) x = some p) :
    p.x = clean1 x := by
  revert hfx
  cases hev : evalSim tab lin quad expo (clean1 x) with
  | none => intro hfx; simp [hev] at hfx
  | some y =>
      intro hfx
      simp only [hev] at hfx
      by_cases hy : |y| < 200
      · rw [if_pos hy] at hfx
        cases hfx
        rfl
      · rw [if_neg hy] at hfx
        cases hfx

/-- Every point the simulator pushes carries a defined `y` that passed the
`|y| < 200` guard. -/
theorem simData_y_bound {tab lin quad expo range p}
    (hp : p ∈ simData tab lin quad expo range) :
    ∃ v, p.y = some v ∧ |v| < 200 := by
  simp only [simData] at hp
  obtain ⟨x, hx, hfx⟩ := List.mem_filterMap.mp hp
  split at hfx
  case h_1 y hev =>
    split at hfx
    · cases hfx
      exact ⟨y, rfl, by assumption⟩
    · exact Option.noConfusion hfx
  case h_2 => exact Option.noConfusion hfx

/-! ### Claim theorems -/

/-- Claim C6: for every quadratic triple (a, b, c) with a ≠ 0 the analyzer
reports Δ = b² − 4ac and the vertex (−b/2a, f(−b/2a)) (the reported vy is
the evaluator's value at vx), and classifies roots: no real roots when
Δ < 0, one root −b/2a when Δ = 0, and the pair (−b ± √Δ)/2a with the "+"
root listed first when Δ > 0; concretely, at a = 1, b = −6, c = 5 the
vertex is (3, −4), Δ = 16 and the roots are (5, 1). -/
theorem quadratic_analysis_spec :
    (∀ q : QuadraticParams, q.a ≠ 0 →
      (getQuadraticAnalysis q).delta = q.b ^ 2 - 4 * q.a * q.c
      ∧ (getQuadraticAnalysis q).vx = -q.b / (2 * q.a)
      ∧ (∀ lin expo, evalSim .QUADRATIC lin q expo (getQuadraticAnalysis q).vx
          = some (getQuadraticAnalysis q).vy)
      ∧ ((getQuadraticAnalysis q).delta < 0 →
          (getQuadraticAnalysis q).roots = .noReal)
      ∧ ((getQuadraticAnalysis q).delta = 0 →
          (getQuadraticAnalysis q).roots = .one (-q.b / (2 * q.a)))
      ∧ (0 < (getQuadraticAnalysis q).delta →
          (getQuadraticAnalysis q).roots =
            .two ((-(q.b : ℝ) + Real.sqrt ((q.b ^ 2 - 4 * q.a * q.c : ℚ) : ℝ)) / (2 * (q.a : ℝ)))
              ((-(q.b : ℝ) - Real.sqrt ((q.b ^ 2 - 4 * q.a * q.c : ℚ) : ℝ)) / (2 * (q.a : ℝ)))))
    ∧ (getQuadraticAnalysis ⟨1, -6, 5⟩).vx = 3
    ∧ (getQuadraticAnalysis ⟨1, -6, 5⟩).vy = -4
    ∧ (getQuadraticAnalysis ⟨1, -6, 5⟩).delta = 16
    ∧ (getQuadraticAnalysis ⟨1, -6, 5⟩).roots = .two 5 1 := by
  constructor
  · intro q hq
    refine ⟨rfl, rfl, ?_, ?_, ?_, ?_⟩
    · intro lin expo
      simp [evalSim, getQuadraticAnalysis]
    · intro hd
      simp only [getQuadraticAnalysis] at hd ⊢
      rw [if_pos hd]
    · intro hd
      simp only [getQuadraticAnalysis] at hd ⊢
      rw [if_neg (by simp [hd]), if_pos hd]
    · intro hd
      simp only [getQuadraticAnalysis] at hd ⊢
      rw [if_neg (by linarith), if_neg (by linarith)]
  · have hdelta : ((1 : ℚ) * 1) * ((-6 : ℚ) * -6) - 4 * 1 * 5 = 16 := by norm_num
    refine ⟨by norm_num [getQuadraticAnalysis], ?_, ?_, ?_⟩
    · simp only [getQuadraticAnalysis]
      norm_num
    · simp only [getQuadraticAnalysis]
      norm_num
    · simp only [getQuadraticAnalysis]
      rw [if_neg (by norm_num), if_neg (by norm_num)]
      have hs : Real.sqrt (16 : ℝ) = 4 := by
        rw [show (16 : ℝ) = (4 : ℝ) ^ 2 by norm_num]
        exact Real.sqrt_sq (by norm_num)
      norm_num
      rw [hs]
      norm_num

/-- Claim C6 witness: the general statement applied at (1, −6, 5). -/
theorem quadratic_analysis_spec_witness :
    (getQuadraticAnalysis ⟨1, -6, 5⟩).delta = (-6 : ℚ) ^ 2 - 4 * 1 * 5
    ∧ (getQuadraticAnalysis ⟨1, -6, 5⟩).vx = -(-6 : ℚ) / (2 * 1)
    ∧ (getQuadraticAnalysis ⟨1, -6, 5⟩).roots = .two 5 1 :=
  ⟨(quadratic_analysis_spec.1 ⟨1, -6, 5⟩ (by norm_num)).1,
   (quadratic_analysis_spec.1 ⟨1, -6, 5⟩ (by norm_num)).2.1,
   quadratic_analysis_spec.2.2.2.2⟩

/-- Claim C7: for every exponential pair (base, k) the analysis box
classifies growth when base > 1 and decay when 0 < base < 1 (base = 1 is
total — it is labelled like decay, no crash), reports the y-intercept as k
(which agrees with the evaluator's value at x = 0 for base > 0), and
reports the horizontal asymptote y = 0. -/
theorem exponential_analysis_spec :
    ∀ p : ExponentialParams,
      (1 < p.base → (getExponentialAnalysis p).tipo = "Creciente")
      ∧ (0 < p.base → p.base < 1 → (getExponentialAnalysis p).tipo = "Decreciente")
      ∧ (p.base = 1 → (getExponentialAnalysis p).tipo = "Decreciente")
      ∧ (getExponentialAnalysis p).corteY = p.k
      ∧ (getExponentialAnalysis p).asintota = 0
      ∧ (∀ lin quad, 0 < p.base →
          evalSim .EXPONENTIAL lin quad p 0 = some (getExponentialAnalysis p).corteY) := by
  intro p
  refine ⟨?_, ?_, ?_, rfl, rfl, ?_⟩
  · intro h
    simp [getExponentialAnalysis, h]
  · intro h0 h1
    simp [getExponentialAnalysis, not_lt.mpr h1.le]
  · intro h
    simp [getExponentialAnalysis, h]
  · intro lin quad h
    simp [evalSim, getExponentialAnalysis, jsPow, h]

/-- Claim C7 witness: the statement applied at base 3/2, 1/2 and 1 with
k = 7. -/
theorem exponential_analysis_spec_witness :
    (getExponentialAnalysis ⟨3 / 2, 7⟩).tipo = "Creciente"
    ∧ (getExponentialAnalysis ⟨1 / 2, 7⟩).tipo = "Decreciente"
    ∧ (getExponentialAnalysis ⟨1, 7⟩).tipo = "Decreciente"
    ∧ evalSim .EXPONENTIAL ⟨0, 0⟩ ⟨0, 0, 0⟩ ⟨3 / 2, 7⟩ 0
        = some (getExponentialAnalysis ⟨3 / 2, 7⟩).corteY :=
  ⟨(exponential_analysis_spec ⟨3 / 2, 7⟩).1 (by norm_num),
   (exponential_analysis_spec ⟨1 / 2, 7⟩).2.1 (by norm_num) (by norm_num),
   (exponential_analysis_spec ⟨1, 7⟩).2.2.1 rfl,
   (exponential_analysis_spec ⟨3 / 2, 7⟩).2.2.2.2.2 ⟨0, 0⟩ ⟨0, 0, 0⟩ (by norm_num)⟩

/-- Claim C1 counterexample: "snowball" is a built-in id (isCustom = false),
yet `handleDelete` on it removes the entry — the catalog shrinks from 3 to 2
and the built-in set changes; the operation is not a no-op. -/
theorem delete_builtin_removes_entry :
    (DEFAULT_PROBLEMS.map fun p => (p.id, p.isCustom)) =
        [("car_rental", false), ("snowball", false), ("anesthesia", false)]
    ∧ DEFAULT_PROBLEMS.length = 3
    ∧ ((handleDelete defaultState "snowball").problems.map fun p => p.id) =
        ["car_rental", "anesthesia"]
    ∧ (handleDelete defaultState "snowball").problems.length = 2 := by
  refine ⟨?_, rfl, ?_, ?_⟩ <;>
    simp [DEFAULT_PROBLEMS, handleDelete, defaultState, carRentalProblem,
      snowballProblem, anesthesiaProblem]

/-- Claim C1 (amended): `handleDelete` filters the catalog by id with no
`isCustom` check, so a built-in is removed like any other entry; the delete
is a no-op exactly when no entry carries the id, and the built-in set is
preserved whenever the deleted id belongs only to custom entries (which is
all the UI ever passes, since it renders the delete control only for
`isCustom` entries). -/
theorem delete_filters_by_id (st : ProblemsState) (id : String) :
    (handleDelete st id).problems = st.problems.filter (fun p => p.id != id)
    ∧ ((∀ p ∈ st.problems, p.id ≠ id) → (handleDelete st id).problems = st.problems)
    ∧ ((∀ p ∈ st.problems, p.id = id → p.isCustom = true) →
        (handleDelete st id).problems.filter (fun p => !p.isCustom) =
          st.problems.filter (fun p => !p.isCustom)) := by
  refine ⟨rfl, ?_, ?_⟩
  · intro h
    simp only [handleDelete]
    rw [List.filter_eq_self.mpr]
    intro p hp
    simpa using h p hp
  · intro h
    simp only [handleDelete]
    rw [List.filter_filter]
    refine List.filter_congr ?_
    intro p hp
    by_cases hc : p.isCustom
    · simp [hc]
    · have hpid : p.id ≠ id := fun he => hc (h p hp he)
      simp [hc, hpid]

/-- Claim C1 witness: deleting an id absent from the default catalog leaves
it unchanged, and deleting the (custom-only) id "custom_1" from the default
catalog preserves the built-in set. -/
theorem delete_filters_by_id_witness :
    (handleDelete defaultState "no_such_id").problems = defaultState.problems
    ∧ (handleDelete defaultState "custom_1").problems.filter (fun p => !p.isCustom) =
        defaultState.problems.filter (fun p => !p.isCustom) :=
  ⟨(delete_filters_by_id defaultState "no_such_id").2.1
      (by simp [defaultState, DEFAULT_PROBLEMS, carRentalProblem, snowballProblem,
        anesthesiaProblem]),
   (delete_filters_by_id defaultState "custom_1").2.2
      (by simp [defaultState, DEFAULT_PROBLEMS, carRentalProblem, snowballProblem,
        anesthesiaProblem])⟩

/-- Claim C3 counterexample: a scenario-store create with no title is not
abandoned — `handleAddProblem` on a draft with `title = none` still appends
an entry (titled "Nuevo Problema") to the catalog. -/
theorem create_without_title_adds_entry :
    emptyDraft.title = none
    ∧ (handleAddProblem defaultState 5 emptyDraft).problems.length =
        defaultState.problems.length + 1
    ∧ ((handleAddProblem defaultState 5 emptyDraft).problems.map fun p => p.title).getLast?
        = some "Nuevo Problema" := by
  refine ⟨rfl, ?_, ?_⟩
  · simp [handleAddProblem]
  · simp [handleAddProblem, createdProblem, jsOrS, emptyDraft]

/-- Claim C3 (amended): the Simulator's save is abandoned when no name is
supplied (`prompt` cancelled or empty string) — nothing is appended; the
Scenario Store's create is not abandoned on a missing title: it appends an
entry whose title defaults to "Nuevo Problema". -/
theorem cancelled_creation :
    (∀ sims tab lin quad expo now dateStr,
      handleSave sims none tab lin quad expo now dateStr = sims
      ∧ handleSave sims (some "") tab lin quad expo now dateStr = sims)
    ∧ (∀ st now np, np.title = none →
        (handleAddProblem st now np).problems.length = st.problems.length + 1
        ∧ ((handleAddProblem st now np).problems.map fun p => p.title).getLast?
            = some "Nuevo Problema") := by
  constructor
  · intro sims tab lin quad expo now dateStr
    exact ⟨rfl, by simp [handleSave]⟩
  · intro st now np ht
    constructor
    · simp [handleAddProblem]
    · simp [handleAddProblem, createdProblem, jsOrS, ht]

/-- Claim C3 witness: the amended statement at concrete inputs — a
cancelled simulator save keeps the empty list, and a title-less create on
the default store adds exactly one entry. -/
theorem cancelled_creation_witness :
    handleSave [] none .LINEAR ⟨2, 1⟩ ⟨1, -6, 5⟩ ⟨3 / 2, 1⟩ 7 "d" = []
    ∧ (handleAddProblem defaultState 5 emptyDraft).problems.length =
        defaultState.problems.length + 1 :=
  ⟨(cancelled_creation.1 [] .LINEAR ⟨2, 1⟩ ⟨1, -6, 5⟩ ⟨3 / 2, 1⟩ 7 "d").1,
   (cancelled_creation.2 defaultState 5 emptyDraft rfl).1⟩

/-- Claim C4: a create with unset numeric fields deterministically receives
the family defaults (slope 1, intercept 0, base 1.1, initial 10), the fresh
id `custom_<now>`, is appended at the end of the catalog (hence at the end
of the custom section: the persisted custom subset grows by exactly this
entry at its end), and becomes the Active entry; when the id is fresh the
active-selection resolves to the created entry itself (whose fields are the
default-filled definition) and the id occurs exactly once. -/
theorem create_defaults_append_select (st : ProblemsState) (now : ℕ) (np : NewProblem)
    (hs : np.params.slope = none) (hi : np.params.intercept = none)
    (hb : np.params.base = none) (hk : np.params.initial = none) :
    (handleAddProblem st now np).problems = st.problems ++ [createdProblem now np]
    ∧ (createdProblem now np).id = "custom_" ++ toString now
    ∧ (createdProblem now np).isCustom = true
    ∧ (createdProblem now np).type = np.type
    ∧ (createdProblem now np).params.slope = some 1
    ∧ (createdProblem now np).params.intercept = some 0
    ∧ (createdProblem now np).params.base = some (11 / 10)
    ∧ (createdProblem now np).params.initial = some 10
    ∧ (handleAddProblem st now np).activeId = (createdProblem now np).id
    ∧ persistCustom (handleAddProblem st now np).problems =
        persistCustom st.problems ++ [createdProblem now np]
    ∧ ((∀ q ∈ st.problems, q.id ≠ "custom_" ++ toString now) →
        activeProblem (handleAddProblem st now np) = some (createdProblem now np))
    ∧ ((∀ q ∈ st.problems, q.id ≠ "custom_" ++ toString now) →
        ((handleAddProblem st now np).problems.filter
            (fun q => q.id == (createdProblem now np).id)).length = 1) := by
  refine ⟨rfl, rfl, rfl, rfl, ?_, ?_, ?_, ?_, rfl, ?_, ?_, ?_⟩
  · simp [createdProblem, jsOrQ, hs]
  · simp [createdProblem, jsOrQ, hi]
  · simp [createdProblem, jsOrQ, hb]
  · simp [createdProblem, jsOrQ, hk]
  · simp [persistCustom, handleAddProblem, List.filter_append, createdProblem]
  · intro hfresh
    simp only [activeProblem, handleAddProblem]
    rw [List.find?_append, List.find?_eq_none.mpr, Option.none_or]
    · simp [createdProblem]
    · intro q hq
      simpa [createdProblem] using hfresh q hq
  · intro hfresh
    simp only [handleAddProblem]
    rw [List.filter_append, List.filter_eq_nil_iff.mpr, List.nil_append]
    · simp
    · intro q hq
      simpa [createdProblem] using hfresh q hq

/-- Claim C4 witness: the statement applied to the default store, time 99
and the all-unset draft. -/
theorem create_defaults_append_select_witness :
    (createdProblem 99 emptyDraft).params.slope = some 1
    ∧ (createdProblem 99 emptyDraft).params.intercept = some 0
    ∧ (createdProblem 99 emptyDraft).params.base = some (11 / 10)
    ∧ (createdProblem 99 emptyDraft).params.initial = some 10
    ∧ (handleAddProblem defaultState 99 emptyDraft).activeId = (createdProblem 99 emptyDraft).id
    ∧ activeProblem (handleAddProblem defaultState 99 emptyDraft) =
        some (createdProblem 99 emptyDraft) := by
  have h := create_defaults_append_select defaultState 99 emptyDraft rfl rfl rfl rfl
  have hfresh : ∀ q ∈ defaultState.problems, q.id ≠ "custom_" ++ toString 99 := by
    intro q hq
    simp only [defaultState, DEFAULT_PROBLEMS, List.mem_cons, List.not_mem_nil,
      or_false] at hq
    rcases hq with rfl | rfl | rfl <;> decide
  exact ⟨h.2.2.2.2.1, h.2.2.2.2.2.1, h.2.2.2.2.2.2.1, h.2.2.2.2.2.2.2.1,
    h.2.2.2.2.2.2.2.2.1, h.2.2.2.2.2.2.2.2.2.2.1 hfresh⟩

/-- Claim C5: on a non-empty catalog the active-selection pointer always
resolves to an existing scenario; when `activeId` matches no entry the
resolution is the first catalog entry; and deleting the active entry moves
the selection to the first remaining entry in catalog order. -/
theorem active_selection_resolves (st : ProblemsState) :
    (st.problems ≠ [] → ∃ p, activeProblem st = some p ∧ p ∈ st.problems)
    ∧ ((∀ p ∈ st.problems, p.id ≠ st.activeId) → activeProblem st = st.problems.head?)
    ∧ (∀ id q rest, st.activeId = id →
        st.problems.filter (fun p => p.id != id) = q :: rest →
        (handleDelete st id).activeId = q.id
        ∧ (handleDelete st id).problems.head? = some q) := by
  refine ⟨?_, ?_, ?_⟩
  · intro hne
    unfold activeProblem
    cases hf : st.problems.find? (fun p => p.id == st.activeId) with
    | some p => exact ⟨p, rfl, List.mem_of_find?_eq_some hf⟩
    | none =>
        cases hps : st.problems with
        | nil => exact absurd hps hne
        | cons q l => exact ⟨q, rfl, List.mem_cons_self q l⟩
  · intro h
    unfold activeProblem
    rw [List.find?_eq_none.mpr]
    intro p hp
    simpa using h p hp
  · intro id q rest hid hfil
    unfold handleDelete
    rw [hid, hfil]
    simp

/-- Claim C5 witness: the statement applied to the default store (and, for
the deletion clause, to a store whose active custom entry is deleted). -/
theorem active_selection_resolves_witness :
    activeProblem { problems := DEFAULT_PROBLEMS, activeId := "nope" } =
        DEFAULT_PROBLEMS.head?
    ∧ (handleDelete { problems := expBaseNeg2 :: DEFAULT_PROBLEMS, activeId := "custom_1" }
        "custom_1").activeId = "car_rental" := by
  have h2 := (active_selection_resolves { problems := DEFAULT_PROBLEMS, activeId := "nope" }).2.1
  have h3 := (active_selection_resolves
      { problems := expBaseNeg2 :: DEFAULT_PROBLEMS, activeId := "custom_1" }).2.2
  refine ⟨?_, ?_⟩
  · refine h2 ?_
    intro p hp
    simp only [List.mem_cons, List.not_mem_nil, or_false, DEFAULT_PROBLEMS] at hp
    rcases hp with rfl | rfl | rfl <;> decide
  · have hfil : (expBaseNeg2 :: DEFAULT_PROBLEMS).filter (fun p => p.id != "custom_1") =
        carRentalProblem :: [snowballProblem, anesthesiaProblem] := by
      simp [DEFAULT_PROBLEMS, List.filter_cons, expBaseNeg2, carRentalProblem,
        snowballProblem, anesthesiaProblem]
    exact (h3 "custom_1" carRentalProblem [snowballProblem, anesthesiaProblem] rfl hfil).1

/-- Claim C10: on every catalog mutation exactly the `isCustom` entries are
serialized (membership in the persisted list is membership in the catalog
plus `isCustom`; built-ins are never persisted), and on load an absent or
undecodable blob falls back to the built-in defaults alone, while a decoded
list is appended after the built-ins. -/
theorem persistence_spec :
    (∀ ps : List ProblemModel, ∀ p, p ∈ persistCustom ps ↔ p ∈ ps ∧ p.isCustom = true)
    ∧ (∀ ps : List ProblemModel, ∀ p ∈ persistCustom ps, p.isCustom = true)
    ∧ loadProblems .absent = DEFAULT_PROBLEMS
    ∧ loadProblems .corrupt = DEFAULT_PROBLEMS
    ∧ (∀ cs, loadProblems (.ok cs) = DEFAULT_PROBLEMS ++ cs) := by
  refine ⟨?_, ?_, rfl, rfl, fun cs => rfl⟩
  · intro ps p
    simp [persistCustom, List.mem_filter]
  · intro ps p hp
    exact ((List.mem_filter.mp hp).2 : p.isCustom = true)

/-- Claim C10 witness: the membership clause applied to a catalog holding a
built-in and a custom entry. -/
theorem persistence_spec_witness :
    (expBaseNeg2 ∈ persistCustom (expBaseNeg2 :: DEFAULT_PROBLEMS) ↔
      expBaseNeg2 ∈ expBaseNeg2 :: DEFAULT_PROBLEMS ∧ expBaseNeg2.isCustom = true)
    ∧ loadProblems .corrupt = DEFAULT_PROBLEMS :=
  ⟨persistence_spec.1 (expBaseNeg2 :: DEFAULT_PROBLEMS) expBaseNeg2,
   persistence_spec.2.2.2.1⟩

/-- Claim C2 counterexample: with exponential base −2 (≤ 0) the Evaluator
is Undefined at every x — the simulator's evaluation at x = 0 is `none` —
yet the scenario sampler still emits a point for every grid x (here x = 0,
1, 2): the undefined evaluation is not omitted from the scenario sequence. -/
theorem scen_undefined_point_pushed :
    evalSim .EXPONENTIAL ⟨0, 0⟩ ⟨0, 0, 0⟩ ⟨-2, 10⟩ 0 = none
    ∧ expBaseNeg2.params.base = some (-2)
    ∧ ((scenData expBaseNeg2).map fun p => p.x) = [0, 1, 2]
    ∧ (scenData expBaseNeg2).length = 3 := by
  refine ⟨by norm_num [evalSim], rfl, ?_, ?_⟩
  · simp only [scenData, expBaseNeg2, rawGrid, List.map_map]
    norm_num
    simp [List.range_succ, clean2, jsRound]
    norm_num
  · simp only [scenData, expBaseNeg2, rawGrid, List.length_map]
    norm_num
    simp

/-- Claim C2 (amended): the free-range simulator omits undefined points
entirely — for exponential base ≤ 0 it emits zero points, and no emitted
point ever carries an undefined y; the scenario sampler, however, pushes a
point for every grid x unconditionally (its x-sequence is exactly the
rounded grid), so an Undefined evaluation is stored rather than omitted. -/
theorem undefined_point_handling :
    (∀ lin quad expo range, expo.base ≤ 0 →
      simData .EXPONENTIAL lin quad expo range = [])
    ∧ (∀ tab lin quad expo range p, p ∈ simData tab lin quad expo range →
        p.y ≠ none)
    ∧ (∀ prob : ProblemModel,
        ((scenData prob).map fun p => p.x) =
          (rawGrid prob.range.min prob.range.max prob.range.step).map clean2) := by
  refine ⟨?_, ?_, ?_⟩
  · intro lin quad expo range h
    simp only [simData]
    rw [List.filterMap_eq_nil_iff]
    intro x hx
    simp [evalSim, not_lt.mpr h]
  · intro tab lin quad expo range p hp
    obtain ⟨v, hv, _⟩ := simData_y_bound hp
    rw [hv]
    exact Option.noConfusion
  · intro prob
    simp only [scenData, List.map_map]
    rfl

/-- Claim C2 witness: the simulator statement applied at base −2 ≤ 0. -/
theorem undefined_point_handling_witness :
    simData .EXPONENTIAL ⟨0, 0⟩ ⟨0, 0, 0⟩ ⟨-2, 10⟩ 1 = [] :=
  undefined_point_handling.1 ⟨0, 0⟩ ⟨0, 0, 0⟩ ⟨-2, 10⟩ 1 (by norm_num)

/-- Claim C8 counterexample: the scenario sampler's rounding to two
decimals collapses distinct raw x values when the (positive) step is below
0.01 — with step 0.001 the emitted x-sequence is [0, 0, 0], which is not
strictly increasing and has duplicates. -/
theorem scen_duplicate_x_small_step :
    (0 : ℚ) < tinyStepProblem.range.step
    ∧ ((scenData tinyStepProblem).map fun p => p.x) = [0, 0, 0]
    ∧ ¬ ((scenData tinyStepProblem).map fun p => p.x).Pairwise (· < ·) := by
  have heq : ((scenData tinyStepProblem).map fun p => p.x) = [0, 0, 0] := by
    simp only [scenData, tinyStepProblem, rawGrid, List.map_map]
    norm_num
    simp [List.range_succ, clean2, jsRound]
    norm_num
  refine ⟨by norm_num [tinyStepProblem], heq, ?_⟩
  rw [heq]
  intro h
  have := List.rel_of_pairwise_cons h (List.mem_cons_self 0 [0])
  exact absurd this (lt_irrefl 0)

/-- Claim C8 (amended): each raw x is rounded before evaluation — to one
decimal in the simulator and two decimals in scenario sampling (the
emitted x-sequences are drawn from the rounded grids, whose raw values span
[min, max]); the simulator's x values (step fixed at 0.5) are always
strictly increasing with no duplicates, and the scenario's are whenever
step ≥ 0.01 (in particular for every catalog problem, whose step is 1) —
but not for smaller positive steps. -/
theorem sampler_rounding_monotone :
    (∀ tab lin quad expo range,
      ((simData tab lin quad expo range).map fun p => p.x).Sublist
        ((rawGrid (-|range|) |range| (1 / 2)).map clean1)
      ∧ ((simData tab lin quad expo range).map fun p => p.x).Pairwise (· < ·))
    ∧ (∀ prob : ProblemModel,
        ((scenData prob).map fun p => p.x) =
          (rawGrid prob.range.min prob.range.max prob.range.step).map clean2
        ∧ (1 ≤ 100 * prob.range.step →
            ((scenData prob).map fun p => p.x).Pairwise (· < ·)))
    ∧ (∀ mn mx step x, x ∈ rawGrid mn mx step → mn ≤ x ∧ x ≤ mx) := by
  have hsim : ∀ tab lin quad expo range,
      ((simData tab lin quad expo range).map fun p => p.x).Sublist
        ((rawGrid (-|range|) |range| (1 / 2)).map clean1) := by
    intro tab lin quad expo range
    simp only [simData]
    exact map_filterMap_sublist _ _ _ _ (fun a b hab => simData_point_x hab)
  refine ⟨fun tab lin quad expo range => ⟨hsim tab lin quad expo range, ?_⟩,
    fun prob => ⟨?_, ?_⟩, fun mn mx step x hx => rawGrid_mem_bounds hx⟩
  · exact List.Pairwise.sublist (hsim tab lin quad expo range)
      (@pairwise_round_rawGrid 10 (-|range|) |range| (1 / 2) (by norm_num) (by norm_num))
  · simp only [scenData, List.map_map]
    rfl
  · intro hstep
    have heq : ((scenData prob).map fun p => p.x) =
        (rawGrid prob.range.min prob.range.max prob.range.step).map clean2 := by
      simp only [scenData, List.map_map]
      rfl
    rw [heq]
    exact @pairwise_round_rawGrid 100 prob.range.min prob.range.max prob.range.step
      (by norm_num) hstep

/-- Claim C8 witness: strict monotonicity of the emitted x values at
concrete inputs — a simulator run and a catalog scenario (step 1). -/
theorem sampler_rounding_monotone_witness :
    ((simData .LINEAR ⟨2, 1⟩ ⟨1, -6, 5⟩ ⟨3 / 2, 1⟩ 2).map fun p => p.x).Pairwise (· < ·)
    ∧ ((scenData expBaseNeg2).map fun p => p.x).Pairwise (· < ·) :=
  ⟨(sampler_rounding_monotone.1 .LINEAR ⟨2, 1⟩ ⟨1, -6, 5⟩ ⟨3 / 2, 1⟩ 2).2,
   (sampler_rounding_monotone.2.1 expBaseNeg2).2 (by norm_num [expBaseNeg2])⟩

/-- Claim C9: every point the simulator emits satisfies |y| < 200, while
scenario sampling applies no magnitude filter: it emits one point per grid
x, and in particular emits the point (1, 1000) for a steep line even though
|1000| ≥ 200. -/
theorem magnitude_filter_spec :
    (∀ tab lin quad expo range p, p ∈ simData tab lin quad expo range →
      ∃ v, p.y = some v ∧ |v| < 200)
    ∧ (∀ prob : ProblemModel,
        (scenData prob).length =
          (rawGrid prob.range.min prob.range.max prob.range.step).length)
    ∧ scenData steepLineProblem = [⟨0, some 0, none⟩, ⟨1, some 1000, none⟩]
    ∧ ¬ (|(1000 : ℚ)| < 200) := by
  refine ⟨?_, ?_, ?_, by norm_num⟩
  · intro tab lin quad expo range p hp
    exact simData_y_bound hp
  · intro prob
    simp [scenData]
  · simp only [scenData, steepLineProblem, rawGrid]
    norm_num
    simp [List.range_succ, clean2, jsRound, evalScen, jsOrQ]
    norm_num

/-- Claim C9 witness: the simulator statement applied to the one point of a
concrete linear run. -/
theorem magnitude_filter_spec_witness :
    (DataPoint.mk 0 (some 1) none).y.isSome = true
    ∧ (scenData steepLineProblem).length =
        (rawGrid steepLineProblem.range.min steepLineProblem.range.max
          steepLineProblem.range.step).length := by
  constructor
  · obtain ⟨v, hv, hb⟩ := magnitude_filter_spec.1 .LINEAR ⟨2, 1⟩ ⟨1, -6, 5⟩ ⟨3 / 2, 1⟩ 0
      ⟨0, some 1, none⟩ (by
        simp only [simData, rawGrid]
        norm_num
        simp [List.range_succ, List.filterMap_cons, clean1, jsRound, evalSim]
        norm_num)
    rw [hv]
    rfl
  · exact magnitude_filter_spec.2.1 steepLineProblem

end Funciones
